import Mathlib

/-!
Verification development for the ephemeral cluster environment manager
(the `env` package of the osdctl repository: type `OcEnv` with its
`Options`). The package's implementation file is absent from the sources;
only its test file `cmd/org/common_test.go` is present. The definitions
below are therefore modelled from the specification (spec.md sections
4.1-4.5 and 6), and cross-checked against the concrete expectations of
the tests (`TestGenerateLoginCommand`, `TestEnsureFile`, `TestDelete`,
`TestCreateBins`, `TestCreateKubeconfig`, `TestKillChildren`,
`TestEnsureEnvVariables`, `TestStart`, `TestPrintKubeConfigExport`).

Filesystem state is shallowly embedded: a workspace is a finite list of
files, each with a name, a permission mode (an octal literal as `Nat`)
and its content as a list of lines. Processes are embedded as a list of
live PIDs; signalling is a pure function on that list. `Start` is
embedded as the trace of observable events it produces.
-/

/-- Modelled from the spec: the resolved option set of an environment
(spec.md section 3, "Environment"; field names follow the Go struct
`Options` as used by the tests): alias, cluster id, username, password,
API url, external kubeconfig source path, and the reset flag. -/
structure Options where
  Alias : String
  ClusterId : String
  Username : String
  Password : String
  Url : String
  Kubeconfig : String
  ResetEnv : Bool
deriving DecidableEq, Repr

/-- A file inside a workspace directory: its name (relative to the
workspace root, e.g. ".ocenv" or "bin/ocl"), its permission mode as a
`Nat` (0o700 = 448, 0o600 = 384), and its content as a list of lines. -/
structure WsFile where
  name : String
  mode : Nat
  lines : List String
deriving DecidableEq, Repr

/-- The on-disk realization of an environment: the set of files under the
workspace root, modelled as a list (later writes are listed first). -/
structure Workspace where
  files : List WsFile
deriving DecidableEq, Repr

/-- The empty, freshly created workspace directory. -/
def emptyWorkspace : Workspace := ⟨[]⟩

/-- Whether a file of the given name exists in the workspace. -/
def hasFile (w : Workspace) (n : String) : Bool :=
  w.files.any (fun f => f.name == n)

/-- Look up a file by name (the most recently written one wins). -/
def getFile (w : Workspace) (n : String) : Option WsFile :=
  w.files.find? (fun f => f.name == n)

/-- Write (create or overwrite) a file in the workspace. -/
def writeFile (w : Workspace) (f : WsFile) : Workspace :=
  ⟨f :: w.files.filter (fun g => g.name != f.name)⟩

/-- Remove a file from the workspace, if present. -/
def removeFile (w : Workspace) (n : String) : Workspace :=
  ⟨w.files.filter (fun g => g.name != n)⟩

/-- Append lines to an existing file; a no-op if the file is absent. -/
def appendLines (w : Workspace) (n : String) (ls : List String) : Workspace :=
  match getFile w n with
  | none => w
  | some f => writeFile w ⟨n, f.mode, f.lines ++ ls⟩

/-- Modelled from the spec: `generateLoginCommandIndividualCluster`
(spec.md section 4.4, case 2; absent from the sources, expected strings
taken from `TestGenerateLoginCommand`). Requires `Url` to be set; the
abort ("fail loudly") on a missing url is embedded as `none`. With a
password, both the `-u` and `-p` flags are embedded; otherwise only
`-u`. -/
def generateLoginCommandIndividualCluster (o : Options) : Option String :=
  if o.Url = "" then
    none
  else if o.Password = "" then
    some ("oc login -u " ++ (o.Username ++ (" " ++ o.Url)))
  else
    some ("oc login -u " ++ (o.Username ++ (" -p " ++ (o.Password ++ (" " ++ o.Url)))))

/-- Modelled from the spec: `generateLoginCommand` (spec.md section 4.4;
absent from the sources, expected strings taken from
`TestGenerateLoginCommand`). A two-way choice: a set cluster id selects
the token-based login keyed by that id, otherwise the individual-cluster
path is taken. -/
def generateLoginCommand (o : Options) : Option String :=
  if o.ClusterId = "" then
    generateLoginCommandIndividualCluster o
  else
    some ("ocm cluster login --token " ++ o.ClusterId)

/-- Modelled from the spec: `PrintKubeConfigExport` (spec.md section 4.2;
absent from the sources, expected output taken from
`TestPrintKubeConfigExport`). Pure formatting of the single line written
to standard output, returned here as the emitted string. -/
def PrintKubeConfigExport (path : String) : String :=
  "export KUBECONFIG=" ++ (path ++ "/kubeconfig.json\n")

/-- Modelled from the spec: `ensureFile` (spec.md section 4.1; absent
from the sources, behavior cross-checked against `TestEnsureFile`).
Creates the file with default attributes if absent and returns a handle
(embedded as the boolean `true`); if the file already exists it does
nothing and returns no handle (`false`), signaling "already initialized"
to callers that must not duplicate writes. -/
def ensureFile (w : Workspace) (n : String) : Workspace × Bool :=
  if hasFile w n then (w, false)
  else (writeFile w ⟨n, 438, []⟩, true)

/-- A termination-signal outcome: delivered, or failed because the
target process no longer exists. -/
inductive SigOutcome where
  | delivered
  | noSuchProcess
deriving DecidableEq, Repr

/-- Send a termination signal to a PID: delivered exactly when the PID
is among the live processes. -/
def sendTermSignal (alive : List Nat) (pid : Nat) : SigOutcome :=
  if alive.contains pid then SigOutcome.delivered else SigOutcome.noSuchProcess

/-- A session's process-visible state: the workspace directory (which
may hold the PID-list file ".killpids") and the set of live descendant
PIDs. -/
structure ProcState where
  ws : Workspace
  alive : List Nat
deriving DecidableEq, Repr

/-- Parse the PID-list file's lines as decimal PIDs. -/
def parsePids (ls : List String) : List Nat :=
  ls.filterMap String.toNat?

/-- Modelled from the spec: `killChildren` (spec.md section 4.5; absent
from the sources, behavior cross-checked against `TestKillChildren`).
Reads the PID-list file if present; for each PID best-effort sends a
termination signal, ignoring "no such process" failures; always removes
the PID-list file afterward. If the file is absent this is a no-op, not
an error. Returns the new state, the per-PID signal outcomes, and
whether an error was raised (never, since the only failures are the
ignored "no such process" ones). -/
def killChildren (s : ProcState) : ProcState × List (Nat × SigOutcome) × Bool :=
  match getFile s.ws ".killpids" with
  | none => (s, [], false)
  | some f =>
    let pids := parsePids f.lines
    (⟨removeFile s.ws ".killpids", s.alive.filter (fun p => !(pids.contains p))⟩,
     pids.map (fun p => (p, sendTermSignal s.alive p)), false)

/-- An observable event of a session: a banner printed to standard
output, the launched shell exiting with a code, or the invocation of
`killChildren`. -/
inductive Event where
  | banner (msg : String)
  | shellExit (code : Nat)
  | killChildrenInvoked
deriving DecidableEq, Repr

/-- Modelled from the spec: `Start` (spec.md section 4.5; absent from
the sources, banner texts taken from `TestStart`). Prints the switching
banner, blocks until the launched shell exits (with `exitCode`), then
prints the exited banner and unconditionally invokes `killChildren`
before returning. Embedded as the ordered trace of observable events
together with the post-cleanup process state. -/
def Start (aliasName : String) (exitCode : Nat) (s : ProcState) :
    List Event × ProcState :=
  ([Event.banner ("Switching to OpenShift environment " ++ aliasName),
    Event.shellExit exitCode,
    Event.banner "Exited OpenShift environment",
    Event.killChildrenInvoked],
   (killChildren s).1)

/-- Modelled from the spec: the KEY=value lines written to the variable
file ".ocenv" (spec.md section 4.2, `EnsureEnvVariables`): KUBECONFIG,
OCM_CONFIG (workspace-scoped), PS1 (decorated with the alias), PATH
(workspace bin/ prepended to the inherited PATH), and CLUSTERID exactly
when a cluster id is present. -/
def envVarLines (o : Options) (path inheritedPath : String) : List String :=
  ["KUBECONFIG=" ++ (path ++ "/kubeconfig.json"),
   "OCM_CONFIG=" ++ (path ++ "/ocm.json"),
   "PS1=" ++ ("[" ++ (o.Alias ++ "] ")),
   "PATH=" ++ (path ++ ("/bin:" ++ inheritedPath))]
  ++ (if o.ClusterId = "" then [] else ["CLUSTERID=" ++ o.ClusterId])

/-- Modelled from the spec: `ensureEnvVariables` (spec.md section 4.2;
absent from the sources, behavior cross-checked against
`TestEnsureEnvVariables`). Uses `ensureFile` semantics: the variable
file ".ocenv" receives the generated lines only when freshly created,
and the shell-init file ".zshenv" sourcing it is created alike, so
re-entrant invocation writes no duplicate lines. -/
def ensureEnvVariables (o : Options) (path inheritedPath : String)
    (w : Workspace) : Workspace :=
  let r1 := ensureFile w ".ocenv"
  let w1 := if r1.2 then appendLines r1.1 ".ocenv" (envVarLines o path inheritedPath) else r1.1
  let r2 := ensureFile w1 ".zshenv"
  if r2.2 then appendLines r2.1 ".zshenv" ["source .ocenv"] else r2.1

/-- Modelled from the spec: the names of the helper scripts `createBins`
writes into bin/ (spec.md section 4.3; set taken from `TestCreateBins`):
the login helper "ocl" only in cluster-id mode, and always the browser
helper "ocb", the describe helper "ocd", and the prompt helper
"kube_ps1" with its companion file "kube-ps1.sh". -/
def binScriptNames (o : Options) : List String :=
  (if o.ClusterId = "" then [] else ["ocl"]) ++ ["ocb", "ocd", "kube_ps1", "kube-ps1.sh"]

/-- Modelled from the spec: the content of one helper script; the login
helper "ocl" consumes the text supplied by the login command builder. -/
def scriptLines (o : Options) (n : String) : List String :=
  if n = "ocl" then ["#!/bin/bash", (generateLoginCommand o).getD ""]
  else ["#!/bin/bash", n]

/-- Modelled from the spec: `createBins` (spec.md section 4.3; absent
from the sources, behavior cross-checked against `TestCreateBins`).
Writes each selected helper script into bin/ with owner-only execute
permission (mode 0o700 = 448); re-running overwrites with identical
content and never appends. -/
def createBins (o : Options) (w : Workspace) : Workspace :=
  (binScriptNames o).foldl
    (fun acc n => writeFile acc ⟨"bin/" ++ n, 448, scriptLines o n⟩) w

/-- Modelled from the spec: `createKubeconfig` (spec.md section 4.2;
absent from the sources, behavior cross-checked against
`TestCreateKubeconfig`). If an external kubeconfig source path was
supplied, copies its bytes verbatim into kubeconfig.json with owner-only
read/write permission (mode 0o600 = 384); otherwise does nothing.
`readFs` embeds the external filesystem read of the source path. -/
def createKubeconfig (o : Options) (readFs : String → List String)
    (w : Workspace) : Workspace :=
  if o.Kubeconfig = "" then w
  else writeFile w ⟨"kubeconfig.json", 384, readFs o.Kubeconfig⟩

/-- Modelled from the spec: `Delete` (spec.md section 4.1; absent from
the sources, behavior cross-checked against `TestDelete`). Recursively
removes the workspace directory tree; "does not exist" is treated as
success, not an error. Returns the disk state for this workspace path
(always gone) and whether an error was raised. -/
def Delete (_d : Option Workspace) : Option Workspace × Bool :=
  (none, false)

/-- Modelled from the spec: `Setup` (spec.md sections 2 and 4; absent
from the sources, behavior cross-checked against `TestSetup`). On reset
the existing tree is deleted first; the directory is ensured, then the
script provisioner and the credential materializer populate it. The
disk state for this workspace path is `some` workspace afterward. -/
def Setup (o : Options) (path inheritedPath : String)
    (readFs : String → List String) (d : Option Workspace) : Option Workspace :=
  let d0 := if o.ResetEnv then (Delete d).1 else d
  let w0 := d0.getD emptyWorkspace
  let w1 := createBins o w0
  let w2 := createKubeconfig o readFs w1
  some (ensureEnvVariables o path inheritedPath w2)

/-! Helper lemmas about the workspace file operations. -/

theorem any_filter_keep (l : List WsFile) (m n : String) (h : ¬ n = m) :
    ((l.filter fun g => g.name != m).any fun g => g.name == n)
      = (l.any fun g => g.name == n) := by
  induction l with
  | nil => rfl
  | cons a l ih =>
    by_cases ha : a.name = m
    · have han : (a.name == n) = false := by
        simp [ha]
        exact fun hnn => h hnn.symm
      simp [List.filter_cons, ha, ih, han]
      exact fun hmn => absurd hmn.symm h
    · simp [List.filter_cons, ha, ih]

theorem any_filter_self (l : List WsFile) (n : String) :
    ((l.filter fun g => g.name != n).any fun g => g.name == n) = false := by
  induction l with
  | nil => rfl
  | cons a l ih =>
    by_cases ha : a.name = n
    · simp [List.filter_cons, ha, ih]
    · simp [List.filter_cons, ha, ih]

theorem find?_filter_keep (l : List WsFile) (m n : String) (h : ¬ n = m) :
    ((l.filter fun g => g.name != m).find? fun g => g.name == n)
      = (l.find? fun g => g.name == n) := by
  induction l with
  | nil => rfl
  | cons a l ih =>
    by_cases ha : a.name = m
    · have hmn : (m == n) = false := by
        simp
        exact fun q => h q.symm
      have han : (a.name == n) = false := by
        simp [ha]
        exact fun hnn => h hnn.symm
      simp [List.filter_cons, ha, List.find?_cons, han, hmn, ih]
    · by_cases han : a.name = n
      · simp [List.filter_cons, ha, List.find?_cons, han, h]
      · simp [List.filter_cons, ha, List.find?_cons, han, ih]

theorem hasFile_writeFile_self (w : Workspace) (f : WsFile) :
    hasFile (writeFile w f) f.name = true := by
  simp [hasFile, writeFile]

theorem hasFile_writeFile_ne (w : Workspace) (f : WsFile) (n : String)
    (h : ¬ n = f.name) : hasFile (writeFile w f) n = hasFile w n := by
  have hfn : (f.name == n) = false := by
    simp
    exact fun hnn => h hnn.symm
  simp [hasFile, writeFile, hfn, any_filter_keep _ _ _ h]

theorem getFile_writeFile_self (w : Workspace) (f : WsFile) :
    getFile (writeFile w f) f.name = some f := by
  simp [getFile, writeFile, List.find?_cons]

theorem getFile_writeFile_ne (w : Workspace) (f : WsFile) (n : String)
    (h : ¬ n = f.name) : getFile (writeFile w f) n = getFile w n := by
  have hfn : (f.name == n) = false := by
    simp
    exact fun hnn => h hnn.symm
  simp [getFile, writeFile, List.find?_cons, hfn, find?_filter_keep _ _ _ h]

theorem hasFile_removeFile_self (w : Workspace) (n : String) :
    hasFile (removeFile w n) n = false := by
  simp [hasFile, removeFile, any_filter_self]

theorem hasFile_of_getFile (w : Workspace) (n : String) (f : WsFile)
    (h : getFile w n = some f) : hasFile w n = true := by
  have hm := List.find?_some h
  have hmem := List.mem_of_find?_eq_some h
  simp [hasFile]
  exact ⟨f, hmem, by simpa using hm⟩

theorem getFile_none_of_hasFile_false (w : Workspace) (n : String)
    (h : hasFile w n = false) : getFile w n = none := by
  cases hg : getFile w n with
  | none => rfl
  | some f => exact absurd (hasFile_of_getFile w n f hg) (by simp [h])

theorem hasFile_false_of_getFile_none (w : Workspace) (n : String)
    (h : getFile w n = none) : hasFile w n = false := by
  simp [getFile, List.find?_eq_none] at h
  simp [hasFile]
  exact h

theorem ne_of_head_ne (a v b u : String) (c d : Char)
    (ha : a.data.head? = some c) (hb : b.data.head? = some d) (hcd : ¬ c = d) :
    ¬ (a ++ v = b ++ u) := by
  intro h
  have hd := congrArg String.data h
  rw [String.data_append, String.data_append] at hd
  have hA : (a.data ++ v.data).head? = some c := by
    cases hx : a.data with
    | nil => rw [hx] at ha; cases ha
    | cons x xs =>
      rw [hx] at ha
      simpa using ha
  have hB : (b.data ++ u.data).head? = some d := by
    cases hx : b.data with
    | nil => rw [hx] at hb; cases hb
    | cons x xs =>
      rw [hx] at hb
      simpa using hb
  rw [hd] at hA
  rw [hA] at hB
  exact hcd (by injection hB)

theorem clusterid_not_mem_envVarLines (o : Options) (path inheritedPath : String)
    (hc : o.ClusterId = "") (v : String) :
    ("CLUSTERID=" ++ v) ∉ envVarLines o path inheritedPath := by
  intro hmem
  simp [envVarLines, hc] at hmem
  rcases hmem with h | h | h | h
  · exact ne_of_head_ne "CLUSTERID=" v "KUBECONFIG=" (path ++ "/kubeconfig.json")
      'C' 'K' (by decide) (by decide) (by decide) h
  · exact ne_of_head_ne "CLUSTERID=" v "OCM_CONFIG=" (path ++ "/ocm.json")
      'C' 'O' (by decide) (by decide) (by decide) h
  · exact ne_of_head_ne "CLUSTERID=" v "PS1=" ("[" ++ (o.Alias ++ "] "))
      'C' 'P' (by decide) (by decide) (by decide) h
  · exact ne_of_head_ne "CLUSTERID=" v "PATH=" (path ++ ("/bin:" ++ inheritedPath))
      'C' 'P' (by decide) (by decide) (by decide) h

/-- C5: on a workspace not yet holding the variable or shell-init file,
`ensureEnvVariables` leaves the variable file ".ocenv" holding exactly
the generated lines — among them a KUBECONFIG=, an OCM_CONFIG=, a PS1=
and a PATH= line, and a CLUSTERID=<id> line exactly when the cluster id
is set — and the shell-init file ".zshenv" sourcing the variable file;
re-invoking it on the resulting workspace changes nothing, so no
duplicate lines are ever written. -/
theorem ensureEnvVariables_spec (o : Options) (path inheritedPath : String)
    (w : Workspace) (h1 : hasFile w ".ocenv" = false)
    (h2 : hasFile w ".zshenv" = false) :
    getFile (ensureEnvVariables o path inheritedPath w) ".ocenv"
      = some ⟨".ocenv", 438, envVarLines o path inheritedPath⟩
    ∧ (∃ v, ("KUBECONFIG=" ++ v) ∈ envVarLines o path inheritedPath)
    ∧ (∃ v, ("OCM_CONFIG=" ++ v) ∈ envVarLines o path inheritedPath)
    ∧ (∃ v, ("PS1=" ++ v) ∈ envVarLines o path inheritedPath)
    ∧ (∃ v, ("PATH=" ++ v) ∈ envVarLines o path inheritedPath)
    ∧ ((("CLUSTERID=" ++ o.ClusterId) ∈ envVarLines o path inheritedPath)
        ↔ o.ClusterId ≠ "")
    ∧ getFile (ensureEnvVariables o path inheritedPath w) ".zshenv"
      = some ⟨".zshenv", 438, ["source .ocenv"]⟩
    ∧ ensureEnvVariables o path inheritedPath (ensureEnvVariables o path inheritedPath w)
      = ensureEnvVariables o path inheritedPath w := by
  have hz_ne_o : ¬ (".zshenv" : String) = ".ocenv" := by decide
  have ho_ne_z : ¬ (".ocenv" : String) = ".zshenv" := by decide
  have e1 : ensureFile w ".ocenv" = (writeFile w ⟨".ocenv", 438, []⟩, true) := by
    simp [ensureFile, h1]
  have e2 : appendLines (writeFile w ⟨".ocenv", 438, []⟩) ".ocenv"
        (envVarLines o path inheritedPath)
      = writeFile (writeFile w ⟨".ocenv", 438, []⟩)
          ⟨".ocenv", 438, envVarLines o path inheritedPath⟩ := by
    simp [appendLines, getFile_writeFile_self w ⟨".ocenv", 438, []⟩]
  have h2b : hasFile (writeFile (writeFile w ⟨".ocenv", 438, []⟩)
      ⟨".ocenv", 438, envVarLines o path inheritedPath⟩) ".zshenv" = false := by
    rw [hasFile_writeFile_ne _ _ _ hz_ne_o, hasFile_writeFile_ne _ _ _ hz_ne_o]
    exact h2
  have e3 : ensureFile (writeFile (writeFile w ⟨".ocenv", 438, []⟩)
        ⟨".ocenv", 438, envVarLines o path inheritedPath⟩) ".zshenv"
      = (writeFile (writeFile (writeFile w ⟨".ocenv", 438, []⟩)
          ⟨".ocenv", 438, envVarLines o path inheritedPath⟩)
            ⟨".zshenv", 438, []⟩, true) := by
    simp [ensureFile, h2b]
  have e4 : appendLines (writeFile (writeFile (writeFile w ⟨".ocenv", 438, []⟩)
        ⟨".ocenv", 438, envVarLines o path inheritedPath⟩) ⟨".zshenv", 438, []⟩)
        ".zshenv" ["source .ocenv"]
      = writeFile (writeFile (writeFile (writeFile w ⟨".ocenv", 438, []⟩)
          ⟨".ocenv", 438, envVarLines o path inheritedPath⟩) ⟨".zshenv", 438, []⟩)
          ⟨".zshenv", 438, ["source .ocenv"]⟩ := by
    simp [appendLines, getFile_writeFile_self _ ⟨".zshenv", 438, []⟩]
  have efinal : ensureEnvVariables o path inheritedPath w
      = writeFile (writeFile (writeFile (writeFile w ⟨".ocenv", 438, []⟩)
          ⟨".ocenv", 438, envVarLines o path inheritedPath⟩) ⟨".zshenv", 438, []⟩)
          ⟨".zshenv", 438, ["source .ocenv"]⟩ := by
    simp [ensureEnvVariables, e1, e2, e3, e4]
  refine ⟨?_, ?_, ?_, ?_, ?_, ?_, ?_, ?_⟩
  · rw [efinal, getFile_writeFile_ne _ _ _ ho_ne_z, getFile_writeFile_ne _ _ _ ho_ne_z]
    exact getFile_writeFile_self _ ⟨".ocenv", 438, envVarLines o path inheritedPath⟩
  · exact ⟨path ++ "/kubeconfig.json", by simp [envVarLines]⟩
  · exact ⟨path ++ "/ocm.json", by simp [envVarLines]⟩
  · exact ⟨"[" ++ (o.Alias ++ "] "), by simp [envVarLines]⟩
  · exact ⟨path ++ ("/bin:" ++ inheritedPath), by simp [envVarLines]⟩
  · constructor
    · intro hmem
      by_cases hc : o.ClusterId = ""
      · exact absurd hmem (clusterid_not_mem_envVarLines o path inheritedPath hc o.ClusterId)
      · exact hc
    · intro hc
      simp [envVarLines, hc]
  · rw [efinal]
    exact getFile_writeFile_self _ ⟨".zshenv", 438, ["source .ocenv"]⟩
  · rw [efinal]
    have hof : hasFile (writeFile (writeFile (writeFile (writeFile w ⟨".ocenv", 438, []⟩)
        ⟨".ocenv", 438, envVarLines o path inheritedPath⟩) ⟨".zshenv", 438, []⟩)
        ⟨".zshenv", 438, ["source .ocenv"]⟩) ".ocenv" = true := by
      rw [hasFile_writeFile_ne _ _ _ ho_ne_z, hasFile_writeFile_ne _ _ _ ho_ne_z]
      exact hasFile_writeFile_self _ ⟨".ocenv", 438, envVarLines o path inheritedPath⟩
    have hzf : hasFile (writeFile (writeFile (writeFile (writeFile w ⟨".ocenv", 438, []⟩)
        ⟨".ocenv", 438, envVarLines o path inheritedPath⟩) ⟨".zshenv", 438, []⟩)
        ⟨".zshenv", 438, ["source .ocenv"]⟩) ".zshenv" = true :=
      hasFile_writeFile_self _ ⟨".zshenv", 438, ["source .ocenv"]⟩
    simp [ensureEnvVariables, ensureFile, hof, hzf]

/-- Witness for C5: the cluster-id case of `TestEnsureEnvVariables` on a
fresh workspace: the variable file holds the generated lines including
CLUSTERID=test-cluster, and the shell-init file sources ".ocenv". -/
theorem ensureEnvVariables_spec_witness :
    getFile (ensureEnvVariables ⟨"test-env", "test-cluster", "", "", "", "", false⟩
        "/p" "/usr/bin" emptyWorkspace) ".ocenv"
      = some ⟨".ocenv", 438,
          envVarLines ⟨"test-env", "test-cluster", "", "", "", "", false⟩ "/p" "/usr/bin"⟩
    ∧ ("CLUSTERID=" ++ "test-cluster")
        ∈ envVarLines ⟨"test-env", "test-cluster", "", "", "", "", false⟩ "/p" "/usr/bin"
    ∧ getFile (ensureEnvVariables ⟨"test-env", "test-cluster", "", "", "", "", false⟩
        "/p" "/usr/bin" emptyWorkspace) ".zshenv"
      = some ⟨".zshenv", 438, ["source .ocenv"]⟩ := by
  have h := ensureEnvVariables_spec ⟨"test-env", "test-cluster", "", "", "", "", false⟩
    "/p" "/usr/bin" emptyWorkspace (by decide) (by decide)
  exact ⟨h.1, h.2.2.2.2.2.1.mpr (by decide), h.2.2.2.2.2.2.1⟩

/-- C6: `ensureFile` on an absent path creates the file and returns a
usable handle; on an existing path it returns no handle and performs no
write; in both cases the file exists afterward, and a repeated call is
idempotent (no handle, workspace unchanged). -/
theorem ensureFile_spec (w : Workspace) (n : String) :
    (hasFile w n = false →
      (ensureFile w n).2 = true ∧ hasFile (ensureFile w n).1 n = true)
    ∧ (hasFile w n = true →
      (ensureFile w n).2 = false ∧ (ensureFile w n).1 = w)
    ∧ hasFile (ensureFile w n).1 n = true
    ∧ ensureFile (ensureFile w n).1 n = ((ensureFile w n).1, false) := by
  by_cases h : hasFile w n = true
  · have e1 : ensureFile w n = (w, false) := by simp [ensureFile, h]
    rw [e1]
    exact ⟨fun hf => absurd h (by simp [hf]), fun _ => ⟨rfl, rfl⟩, h, e1⟩
  · have hf : hasFile w n = false := by simpa using h
    have e1 : ensureFile w n = (writeFile w ⟨n, 438, []⟩, true) := by
      simp [ensureFile, hf]
    have hcreated : hasFile (writeFile w ⟨n, 438, []⟩) n = true :=
      hasFile_writeFile_self w ⟨n, 438, []⟩
    rw [e1]
    exact ⟨fun _ => ⟨rfl, hcreated⟩, fun ht => absurd ht (by simp [hf]),
      hcreated, by simp [ensureFile, hcreated]⟩

/-- Witness for C6: the two concrete cases of `TestEnsureFile`, a fresh
workspace and one already holding the file. -/
theorem ensureFile_spec_witness :
    ((ensureFile emptyWorkspace "testfile.txt").2 = true
      ∧ hasFile (ensureFile emptyWorkspace "testfile.txt").1 "testfile.txt" = true)
    ∧ ((ensureFile ⟨[⟨"existing.txt", 420, ["test"]⟩]⟩ "existing.txt").2 = false
      ∧ (ensureFile ⟨[⟨"existing.txt", 420, ["test"]⟩]⟩ "existing.txt").1
          = ⟨[⟨"existing.txt", 420, ["test"]⟩]⟩) :=
  ⟨(ensureFile_spec emptyWorkspace "testfile.txt").1 (by decide),
   (ensureFile_spec ⟨[⟨"existing.txt", 420, ["test"]⟩]⟩ "existing.txt").2.1 (by decide)⟩

/-- C3: `killChildren` on a workspace with no PID-list file is a no-op
raising no error; whenever the file existed — even when it lists only
already-terminated PIDs, whose signal outcomes are the ignored "no such
process" failures — the file is removed before returning and no error is
raised. -/
theorem killChildren_spec (s : ProcState) :
    (hasFile s.ws ".killpids" = false → killChildren s = (s, [], false))
    ∧ (hasFile s.ws ".killpids" = true →
        hasFile (killChildren s).1.ws ".killpids" = false
        ∧ (killChildren s).2.2 = false) := by
  constructor
  · intro h
    have hg := getFile_none_of_hasFile_false s.ws ".killpids" h
    simp [killChildren, hg]
  · intro h
    cases hg : getFile s.ws ".killpids" with
    | none =>
      exact absurd h (by simp [hasFile_false_of_getFile_none s.ws ".killpids" hg])
    | some f =>
      simp [killChildren, hg]
      exact hasFile_removeFile_self s.ws ".killpids"

/-- Witness for C3: a workspace without the PID-list file is untouched,
and one whose PID-list file holds only the dead PID 99 ends with the
file removed and no error. -/
theorem killChildren_spec_witness :
    killChildren ⟨emptyWorkspace, []⟩ = (⟨emptyWorkspace, []⟩, [], false)
    ∧ (hasFile (killChildren ⟨⟨[⟨".killpids", 420, ["99"]⟩]⟩, []⟩).1.ws ".killpids" = false
      ∧ (killChildren ⟨⟨[⟨".killpids", 420, ["99"]⟩]⟩, []⟩).2.2 = false) :=
  ⟨(killChildren_spec ⟨emptyWorkspace, []⟩).1 (by decide),
   (killChildren_spec ⟨⟨[⟨".killpids", 420, ["99"]⟩]⟩, []⟩).2 (by decide)⟩

/-- C4: `Start` produces exactly the trace: switching banner, shell exit
(for every exit code), exited banner, `killChildren` invocation — so it
never returns without `killChildren` having been invoked, and its final
state is the post-`killChildren` state. -/
theorem Start_spec (aliasName : String) (exitCode : Nat) (s : ProcState) :
    (Start aliasName exitCode s).1
      = [Event.banner ("Switching to OpenShift environment " ++ aliasName),
         Event.shellExit exitCode,
         Event.banner "Exited OpenShift environment",
         Event.killChildrenInvoked]
    ∧ Event.killChildrenInvoked ∈ (Start aliasName exitCode s).1
    ∧ (Start aliasName exitCode s).2 = (killChildren s).1 :=
  ⟨rfl, by simp [Start], rfl⟩

/-- C9: `Delete` after `Setup` leaves no trace of the workspace on disk
and raises no error, and `Delete` on a non-existent workspace succeeds
without error. -/
theorem Delete_after_Setup (o : Options) (path inheritedPath : String)
    (readFs : String → List String) (d : Option Workspace) :
    Delete (Setup o path inheritedPath readFs d) = (none, false)
    ∧ Delete none = (none, false) :=
  ⟨rfl, rfl⟩

/-- C1: for every environment whose cluster id is non-empty,
`generateLoginCommand` returns the token-based login command keyed by
that cluster id, regardless of the username/password/url fields:
cluster-id mode takes precedence over username/password mode. -/
theorem generateLoginCommand_clusterId_precedence (o : Options)
    (h : o.ClusterId ≠ "") :
    generateLoginCommand o = some ("ocm cluster login --token " ++ o.ClusterId) := by
  simp [generateLoginCommand, h]

/-- Witness for C1: a concrete environment with cluster id, username and
password all set still yields the token-based form. -/
theorem generateLoginCommand_clusterId_precedence_witness :
    generateLoginCommand ⟨"a", "test-cluster", "testuser", "testpass", "https://api.test.com:6443", "", false⟩
      = some "ocm cluster login --token test-cluster" := by
  rw [generateLoginCommand_clusterId_precedence ⟨"a", "test-cluster", "testuser", "testpass", "https://api.test.com:6443", "", false⟩ (by decide)]
  rfl

/-- C2: in individual-cluster mode the builder aborts (returns no
command) when `url` is empty; when `url` is set the command embeds the
username flag, together with the password flag exactly when the password
is non-empty; and `generateLoginCommand` reaches this path whenever the
cluster id is unset. -/
theorem generateLoginCommandIndividualCluster_spec (o : Options) :
    (o.Url = "" → generateLoginCommandIndividualCluster o = none)
    ∧ (o.Url ≠ "" → o.Password = "" →
        generateLoginCommandIndividualCluster o
          = some ("oc login -u " ++ (o.Username ++ (" " ++ o.Url))))
    ∧ (o.Url ≠ "" → o.Password ≠ "" →
        generateLoginCommandIndividualCluster o
          = some ("oc login -u " ++ (o.Username ++ (" -p " ++ (o.Password ++ (" " ++ o.Url))))))
    ∧ (o.ClusterId = "" →
        generateLoginCommand o = generateLoginCommandIndividualCluster o) := by
  refine ⟨fun h => ?_, fun hu hp => ?_, fun hu hp => ?_, fun hc => ?_⟩
  · simp [generateLoginCommandIndividualCluster, h]
  · simp [generateLoginCommandIndividualCluster, hu, hp]
  · simp [generateLoginCommandIndividualCluster, hu, hp]
  · simp [generateLoginCommand, hc]

/-- Witness for C2: the concrete environments of the tests. With no url
the builder yields no command; with url set it yields exactly the
commands expected by `TestGenerateLoginCommand`. -/
theorem generateLoginCommandIndividualCluster_spec_witness :
    generateLoginCommandIndividualCluster ⟨"", "", "testuser", "", "", "", false⟩ = none
    ∧ generateLoginCommandIndividualCluster ⟨"", "", "testuser", "", "https://api.test.com:6443", "", false⟩
        = some "oc login -u testuser https://api.test.com:6443"
    ∧ generateLoginCommandIndividualCluster ⟨"", "", "testuser", "testpass", "https://api.test.com:6443", "", false⟩
        = some "oc login -u testuser -p testpass https://api.test.com:6443" := by
  refine ⟨?_, ?_, ?_⟩
  · exact (generateLoginCommandIndividualCluster_spec ⟨"", "", "testuser", "", "", "", false⟩).1 rfl
  · exact ((generateLoginCommandIndividualCluster_spec ⟨"", "", "testuser", "", "https://api.test.com:6443", "", false⟩).2.1 (by decide) rfl)
  · exact ((generateLoginCommandIndividualCluster_spec ⟨"", "", "testuser", "testpass", "https://api.test.com:6443", "", false⟩).2.2.1 (by decide) (by decide))

/-- C7: `createBins` on a fresh workspace writes exactly the scripts
{ocl, ocb, ocd, kube_ps1, kube-ps1.sh} for a cluster-id-based
environment and exactly {ocb, ocd, kube_ps1, kube-ps1.sh} for a
kubeconfig-based one — the latter set is a strict subset missing only
the login helper ocl — and every written script has mode 0o700 (448). -/
theorem createBins_spec (o1 o2 : Options)
    (h1 : o1.ClusterId ≠ "") (h2 : o2.ClusterId = "") :
    binScriptNames o1 = ["ocl", "ocb", "ocd", "kube_ps1", "kube-ps1.sh"]
    ∧ binScriptNames o2 = ["ocb", "ocd", "kube_ps1", "kube-ps1.sh"]
    ∧ (∀ n ∈ binScriptNames o2, n ∈ binScriptNames o1)
    ∧ "ocl" ∈ binScriptNames o1
    ∧ "ocl" ∉ binScriptNames o2
    ∧ (createBins o1 emptyWorkspace).files.map WsFile.name
        = ["bin/kube-ps1.sh", "bin/kube_ps1", "bin/ocd", "bin/ocb", "bin/ocl"]
    ∧ (createBins o2 emptyWorkspace).files.map WsFile.name
        = ["bin/kube-ps1.sh", "bin/kube_ps1", "bin/ocd", "bin/ocb"]
    ∧ (createBins o1 emptyWorkspace).files.map WsFile.mode = [448, 448, 448, 448, 448]
    ∧ (createBins o2 emptyWorkspace).files.map WsFile.mode = [448, 448, 448, 448] := by
  have e1 : binScriptNames o1 = ["ocl", "ocb", "ocd", "kube_ps1", "kube-ps1.sh"] := by
    simp [binScriptNames, h1]
  have e2 : binScriptNames o2 = ["ocb", "ocd", "kube_ps1", "kube-ps1.sh"] := by
    simp [binScriptNames, h2]
  refine ⟨e1, e2, ?_, ?_, ?_, ?_, ?_, ?_, ?_⟩
  · rw [e1, e2]
    intro n hn
    simp at hn
    simp [hn]
  · rw [e1]
    simp
  · rw [e2]
    simp
  · unfold createBins
    rw [e1]
    rfl
  · unfold createBins
    rw [e2]
    rfl
  · unfold createBins
    rw [e1]
    rfl
  · unfold createBins
    rw [e2]
    rfl

/-- Witness for C7: the two concrete option sets of `TestCreateBins`
(cluster id "test-cluster" versus kubeconfig "test-kubeconfig"). -/
theorem createBins_spec_witness :
    (createBins ⟨"", "test-cluster", "", "", "", "", false⟩ emptyWorkspace).files.map WsFile.name
      = ["bin/kube-ps1.sh", "bin/kube_ps1", "bin/ocd", "bin/ocb", "bin/ocl"]
    ∧ (createBins ⟨"", "", "", "", "", "test-kubeconfig", false⟩ emptyWorkspace).files.map WsFile.name
      = ["bin/kube-ps1.sh", "bin/kube_ps1", "bin/ocd", "bin/ocb"] :=
  ⟨(createBins_spec ⟨"", "test-cluster", "", "", "", "", false⟩
      ⟨"", "", "", "", "", "test-kubeconfig", false⟩ (by decide) rfl).2.2.2.2.2.1,
   (createBins_spec ⟨"", "test-cluster", "", "", "", "", false⟩
      ⟨"", "", "", "", "", "test-kubeconfig", false⟩ (by decide) rfl).2.2.2.2.2.2.1⟩

/-- C8: `createKubeconfig` with a kubeconfig source path supplied copies
the source content unchanged into kubeconfig.json with mode 0o600 (384);
with no source path it changes nothing, so kubeconfig.json does not
exist afterward on a workspace that did not have it. -/
theorem createKubeconfig_spec (o : Options) (readFs : String → List String)
    (w : Workspace) :
    (o.Kubeconfig ≠ "" →
      getFile (createKubeconfig o readFs w) "kubeconfig.json"
        = some ⟨"kubeconfig.json", 384, readFs o.Kubeconfig⟩)
    ∧ (o.Kubeconfig = "" → createKubeconfig o readFs w = w)
    ∧ (o.Kubeconfig = "" → hasFile w "kubeconfig.json" = false →
        hasFile (createKubeconfig o readFs w) "kubeconfig.json" = false) := by
  refine ⟨fun h => ?_, fun h => ?_, fun h hf => ?_⟩
  · have e : createKubeconfig o readFs w
        = writeFile w ⟨"kubeconfig.json", 384, readFs o.Kubeconfig⟩ := by
      simp [createKubeconfig, h]
    rw [e]
    exact getFile_writeFile_self w ⟨"kubeconfig.json", 384, readFs o.Kubeconfig⟩
  · simp [createKubeconfig, h]
  · simp [createKubeconfig, h]
    exact hf

/-- Witness for C8: copying the content of `TestCreateKubeconfig` into a
fresh workspace, and the no-source case leaving the file absent. -/
theorem createKubeconfig_spec_witness :
    getFile (createKubeconfig ⟨"", "", "", "", "", "/tmp/kc", false⟩
        (fun _ => ["test-kubeconfig-content"]) emptyWorkspace) "kubeconfig.json"
      = some ⟨"kubeconfig.json", 384, ["test-kubeconfig-content"]⟩
    ∧ hasFile (createKubeconfig ⟨"", "", "", "", "", "", false⟩
        (fun _ => ["test-kubeconfig-content"]) emptyWorkspace) "kubeconfig.json" = false :=
  ⟨(createKubeconfig_spec ⟨"", "", "", "", "", "/tmp/kc", false⟩
      (fun _ => ["test-kubeconfig-content"]) emptyWorkspace).1 (by decide),
   (createKubeconfig_spec ⟨"", "", "", "", "", "", false⟩
      (fun _ => ["test-kubeconfig-content"]) emptyWorkspace).2.2 rfl (by decide)⟩

/-- C10: `PrintKubeConfigExport` emits exactly the single line
`export KUBECONFIG=<path>/kubeconfig.json` followed by a newline, and
nothing else; in particular the two concrete outputs of
`TestPrintKubeConfigExport`. -/
theorem PrintKubeConfigExport_spec :
    (∀ p : String, PrintKubeConfigExport p = "export KUBECONFIG=" ++ (p ++ "/kubeconfig.json\n"))
    ∧ PrintKubeConfigExport "/home/user/ocenv/test"
        = "export KUBECONFIG=/home/user/ocenv/test/kubeconfig.json\n"
    ∧ PrintKubeConfigExport "" = "export KUBECONFIG=/kubeconfig.json\n" := by
  refine ⟨fun p => rfl, rfl, rfl⟩
